import Mathlib

/-!
Shallow embedding of the pumpy3 driver (`src/pumpy3/pump.py`), covering the
command engine (`Pump.issue_command`), the numeric codec
(`Pump.parse_float_to_str` / `Pump.parse_float_response`), the run/stop and
set/get operations of the current (`_new`) class hierarchy, and the heartbeat
loop (`Pump.sleep_with_heartbeat`).

Modelling conventions:
- Python floats are modelled as `ℚ`; the `"%.3f"` / `"%2.2f"` renderings are
  modelled as round-half-even at the given number of decimals (CPython rounds
  the binary double half-to-even when formatting).
- The serial transport is an oracle: each `issue_command` exchange consumes one
  pre-split reply (`List String`, the result of `.splitlines()`); an empty list
  models a read that returned zero bytes.  Every operation also returns the
  list of instruction strings actually written to the transport, so "no byte
  was sent" is expressible as an empty trace.
- Python exceptions become an error enumeration `PErr`; the distinct exception
  classes of pump.py (`PumpError`, `PumpNoResponseError`, ...) and the built-in
  `ValueError` / `TypeError` / `IndexError` / `KeyError` each get a constructor.
  `PErr.generic` is a plain `PumpError`.
- Dynamic typing matters in `issue_command` (its callers pass an `int` where a
  `str` is expected and vice versa), so the `units` and `syringe` arguments are
  modelled as a Python-value sum type `PyVal`.
-/

/-- The exception kinds raised by pump.py: the `PumpError` hierarchy
(`generic` is the base `PumpError` itself) plus the Python built-ins that
its methods can raise. -/
inductive PErr where
  | generic
  | noResponse
  | synErr
  | outOfRange
  | notApplicable
  | stall
  | funcNotAvailable
  | valueErr
  | typeErr
  | indexErr
  | keyErr
  deriving DecidableEq, Repr

/-- A dynamically typed Python value, as far as `issue_command`'s `units` and
`syringe` parameters are concerned. -/
inductive PyVal where
  | pyInt : Int → PyVal
  | pyStr : String → PyVal
  deriving DecidableEq, Repr

/-- `beginsWith s pat`: `pat` is an initial segment of `s` (helper for
Python's substring test `pat in s`). -/
def beginsWith : List Char → List Char → Bool
  | _, [] => true
  | [], _ :: _ => false
  | a :: as, b :: bs => a == b && beginsWith as bs

/-- `auxSub s pat`: `pat` occurs somewhere in `s`. -/
def auxSub : List Char → List Char → Bool
  | [], pat => pat.isEmpty
  | c :: rest, pat => beginsWith (c :: rest) pat || auxSub rest pat

/-- Python's `pat in s` substring test on strings. -/
def containsSub (s pat : String) : Bool :=
  auxSub s.toList pat.toList

/-- Python `s.strip()`: drop whitespace from both ends. -/
def pyStrip (s : String) : String :=
  String.mk (((s.toList.dropWhile Char.isWhitespace).reverse.dropWhile
    Char.isWhitespace).reverse)

/-- Round-half-even of the fraction `num / den` (for `den > 0`) to an integer:
the rounding CPython's fixed point formatting applies.  `num / den` with `/`
and `%` on `ℤ` is floor division for a positive denominator. -/
def rheScaled (num : ℤ) (den : ℕ) : ℤ :=
  let f := num / den
  let r := num % den
  if 2 * r < den then f
  else if (den : ℤ) < 2 * r then f + 1
  else if f % 2 = 0 then f else f + 1

/-- Decimal digits of a natural number padded with leading zeros to width `w`. -/
def padDigits (w m : Nat) : String :=
  let s := toString m
  String.mk (List.replicate (w - s.length) '0') ++ s

/-- Render the non-negative value `num / den` rounded half-even at three
decimals, with exactly three decimals printed. -/
def formatScaled3 (num : ℤ) (den : ℕ) : String :=
  let n := (rheScaled (num * 1000) den).toNat
  toString (n / 1000) ++ "." ++ padDigits 3 (n % 1000)

/-- Python `f"{q:.3f}"` for a non-negative rational. -/
def formatFixed3 (q : ℚ) : String :=
  formatScaled3 q.num q.den

/-- Python `"%2.2f" % q` for a non-negative rational: round-half-even at two
decimals, then render with exactly two decimals (the width-2 minimum never
pads for such values). -/
def format2f (q : ℚ) : String :=
  let n := (rheScaled (q.num * 100) q.den).toNat
  toString (n / 100) ++ "." ++ padDigits 2 (n % 100)

/-- Python `s[:5].ljust(5, '0')`. -/
def fit5 (s : String) : String :=
  let t := s.take 5
  t.pushn '0' (5 - t.length)

/-- `Pump.parse_float_to_str` (pump.py:92-110): reject values outside
`[0, 9999)` with a `ValueError`, otherwise `f"{number:.3f}"[:5].ljust(5,'0')`. -/
def parse_float_to_str (q : ℚ) : Except PErr String :=
  if 0 ≤ q ∧ q < 9999 then .ok (fit5 (formatFixed3 q)) else .error .valueErr

/-- Numeric value of a digit list read in base 10. -/
def natOfDigits (cs : List Char) : Nat :=
  cs.foldl (fun a c => a * 10 + (c.toNat - 48)) 0

/-- Python `float(s)` restricted to the plain decimal forms that occur on the
wire (digits, optionally a point and more digits); `none` models the
`ValueError` that `float` raises on anything unparseable. -/
def parseDecimal (cs : List Char) : Option ℚ :=
  let ip := cs.takeWhile Char.isDigit
  let rest := cs.dropWhile Char.isDigit
  match rest with
  | [] => if ip.isEmpty then none else some (mkRat (natOfDigits ip) 1)
  | '.' :: rest2 =>
    let fp := rest2.takeWhile Char.isDigit
    let rest3 := rest2.dropWhile Char.isDigit
    if !rest3.isEmpty then none
    else if ip.isEmpty && fp.isEmpty then none
    else some (mkRat (natOfDigits ip * 10 ^ fp.length + natOfDigits fp) (10 ^ fp.length))
  | _ => none

/-- `Pump.parse_float_response` (pump.py:73-90): `float(response.strip())`,
re-raising the parse failure as a plain `PumpError`. -/
def parse_float_response (s : String) : Except PErr ℚ :=
  match parseDecimal (pyStrip s).toList with
  | some q => .ok q
  | none => .error .generic

/-- `decode ∘ encode`: `parse_float_response` applied to the string produced by
`parse_float_to_str`. -/
def decode_encode (q : ℚ) : Except PErr ℚ :=
  match parse_float_to_str q with
  | .error e => .error e
  | .ok s => parse_float_response s

/-- Modelled from the spec: §4.2/§8's reference value "truncating v to 3
decimal places and fitting into a 5-character field" — truncate (floor at the
third decimal, giving the fraction `⌊q·1000⌋ / 1000`), render it with three
decimals, slice/pad to five characters, decode.  This is the comparator the
spec claims `decode(encode(v))` equals; it is not code of pump.py. -/
def spec_truncate_fit (q : ℚ) : Except PErr ℚ :=
  parse_float_response (fit5 (formatScaled3 (q.num * 1000 / (q.den : ℤ)) 1000))

deriving instance DecidableEq for Except

/-- Assoc-list lookup with integer keys (a Python dict with `int` keys). -/
def intLookup (k : Int) : List (Int × String) → Option String
  | [] => none
  | (a, b) :: rest => if a = k then some b else intLookup k rest

/-- Indexing a Python dict with `int` keys by an arbitrary value: a `str` key
never matches (KeyError), an `int` key is looked up. -/
def pyLookup (d : List (Int × String)) (k : PyVal) : Option String :=
  match k with
  | .pyInt n => intLookup n d
  | .pyStr _ => none

/-- Assoc-list lookup with string keys (a Python dict with `str` keys). -/
def strLookup (k : String) : List (String × String) → Option String
  | [] => none
  | (a, b) :: rest => if a = k then some b else strLookup k rest

/-- Python dict-literal / assignment semantics: inserting an existing key
overwrites its value, a new key is appended. -/
def dictInsert (d : List (String × String)) (k v : String) : List (String × String) :=
  if d.any (fun p => p.1 == k) then d.map (fun p => if p.1 == k then (k, v) else p)
  else d ++ [(k, v)]

/-- The per-family configuration fields set up in the `__init__` methods of
`Pump` and its `_new` subclasses. -/
structure PumpConfig where
  address : String
  syringe_selection : List (Int × String)
  unit_conversion : List (String × String)
  mode_conversion : List (String × String)
  possible_directions : List String
  running_status : List Char
  stopped_status : List Char
  stalled_status : List Char
  deriving Repr

/-- The one attribute the operations mutate: `self.state` (absent before the
first `run`/`stop` writes it). -/
structure PumpSt where
  state : Option String
  deriving DecidableEq, Repr

/-- The reply oracle: the pre-split (`.splitlines()`) reply for each
successive `issue_command` exchange.  An exhausted oracle yields `[]`, i.e. a
read that returned zero bytes. -/
abbrev Replies := List (List String)

/-- Pop the next reply off the oracle. -/
def nextReply (rs : Replies) : List String × Replies :=
  match rs with
  | [] => ([], [])
  | r :: rest => (r, rest)

/-- The reply-classification part of `Pump.issue_command` (pump.py:169-183):
an empty reply raises the plain `PumpError` (line 171); otherwise the second
line (`response[1]`, an `IndexError` on a one-line reply) is searched for
`?`, then `NA`, then `OOR`; otherwise all lines are returned. -/
def classify_response (response : List String) : Except PErr (List String) :=
  match response with
  | [] => .error .generic
  | [_] => .error .indexErr
  | _ :: l1 :: _ =>
    if containsSub l1 "?" then .error .synErr
    else if containsSub l1 "NA" then .error .notApplicable
    else if containsSub l1 "OOR" then .error .outOfRange
    else .ok response

/-- `Pump.issue_command` (pump.py:144-183).  Returns the instructions written
to the transport alongside the outcome.  `units` and `syringe` are dynamic
(`PyVal`): the syringe lookup raises `ValueError` on an unknown (or
string-typed) key, and concatenating a non-string `units` into the
instruction raises `TypeError` before anything is written. -/
def issue_command (p : PumpConfig) (command : String) (value : String)
    (units : PyVal) (syringe : PyVal) (reply : List String) :
    List String × Except PErr (List String) :=
  match pyLookup p.syringe_selection syringe with
  | none => ([], .error .valueErr)
  | some syringe_command =>
    match units with
    | .pyInt _ => ([], .error .typeErr)
    | .pyStr u =>
      let instruction := pyStrip (p.address ++ command ++ syringe_command ++ value ++ u)
      ([instruction], classify_response reply)

/-- The object-level step of `issue_command`: the method body assigns no
attribute, so the stored state is returned unchanged. -/
def issue_command_st (st : PumpSt) (p : PumpConfig) (command : String)
    (value : String) (units : PyVal) (syringe : PyVal) (reply : List String) :
    PumpSt × (List String × Except PErr (List String)) :=
  (st, issue_command p command value units syringe reply)

/-- `Pump.get_state` (pump.py:268-277): issue `MOD`, return `response[2][1]`
(character index 1 of the third reply line; out-of-range indexing is an
`IndexError`). -/
def get_state (p : PumpConfig) (reply : List String) :
    List String × Except PErr Char :=
  let (t, res) := issue_command p "MOD" "" (.pyStr "") (.pyInt 0) reply
  match res with
  | .error e => (t, .error e)
  | .ok resp =>
    match resp.get? 2 with
    | none => (t, .error .indexErr)
    | some l2 =>
      match l2.toList.get? 1 with
      | none => (t, .error .indexErr)
      | some c => (t, .ok c)

/-- `Pump.get_mode` (pump.py:279-288): issue `MOD`, return `resp[1].strip()`. -/
def get_mode (p : PumpConfig) (reply : List String) :
    List String × Except PErr String :=
  let (t, res) := issue_command p "MOD" "" (.pyStr "") (.pyInt 0) reply
  match res with
  | .error e => (t, .error e)
  | .ok resp =>
    match resp.get? 1 with
    | none => (t, .error .indexErr)
    | some l => (t, .ok (pyStrip l))

/-- `Pump.get_diameter` (pump.py:305-323): issue `DIA` (syringe passed by
keyword), parse `resp[1].strip()` as a float. -/
def get_diameter (p : PumpConfig) (syringe : Int) (reply : List String) :
    List String × Except PErr ℚ :=
  let (t, res) := issue_command p "DIA" "" (.pyStr "") (.pyInt syringe) reply
  match res with
  | .error e => (t, .error e)
  | .ok resp =>
    match resp.get? 1 with
    | none => (t, .error .indexErr)
    | some l => (t, parse_float_response (pyStrip l))

/-- `Pump.get_rate` (pump.py:325-345): issue `RAT` (syringe by keyword), strip
`resp[1]`, split it as columns 0-5 (numeric field) and 6.. (unit), parse the
numeric field. -/
def get_rate (p : PumpConfig) (syringe : Int) (reply : List String) :
    List String × Except PErr (ℚ × String) :=
  let (t, res) := issue_command p "RAT" "" (.pyStr "") (.pyInt syringe) reply
  match res with
  | .error e => (t, .error e)
  | .ok resp =>
    match resp.get? 1 with
    | none => (t, .error .indexErr)
    | some l0 =>
      let l := (pyStrip l0).toList
      let number := pyStrip (String.mk (l.take 6))
      let unit := pyStrip (String.mk (l.drop 6))
      match parse_float_response number with
      | .error e => (t, .error e)
      | .ok q => (t, .ok (q, unit))

/-- `Pump.__init__` configuration (pump.py:40-67) for chain address 0
(formatted as the two-digit string "00"). -/
def basePump : PumpConfig :=
  { address := "00"
    syringe_selection := [(0, "")]
    unit_conversion := [("ul/mn", "UM"), ("ml/mn", "MM"), ("ul/hr", "UH"), ("ml/hr", "MH")]
    mode_conversion := [("PUMP", "PMP"), ("VOLUME", "VLM")]
    possible_directions := ["INF", "REF", "REV"]
    running_status := ['<', '>']
    stopped_status := [':']
    stalled_status := ['*'] }

/-- The `mode_conversion` dict literal of `PumpModel33_new.__init__`
(pump.py:500-504): three entries all keyed `"??"`, built with Python's
dict-literal semantics (later duplicate keys overwrite earlier ones). -/
def model33_mode_conversion : List (String × String) :=
  dictInsert (dictInsert (dictInsert [] "??" "AUT") "??" "PROP") "??" "CON"

/-- `PumpModel33_new.__init__` (pump.py:489-506): twin-syringe selectors A/B,
base statuses, and the degenerate mode table. -/
def pumpModel33New : PumpConfig :=
  { basePump with
    syringe_selection := [(0, ""), (1, "A"), (2, "B")]
    mode_conversion := model33_mode_conversion }

/-- `PumpPHD2000_new.__init__` (pump.py:542-556): single syringe, extended
stopped set, empty stalled set (no stall detection). -/
def pumpPHD2000New : PumpConfig :=
  { basePump with
    stopped_status := [':', '*', '/', '^']
    stalled_status := [] }

/-- `PumpPHD2000_NoRefill_new` inherits the PHD2000 configuration unchanged
(pump.py:718-720). -/
def pumpPHD2000NoRefillNew : PumpConfig :=
  pumpPHD2000New

/-- `Pump._run_checks_ignorable` (pump.py:185-210): issue `RUN`; absorb
`PumpNotApplicableError` when `already_running_ok` (else re-raise it), absorb
`PumpNoResponseError` when `no_response_ok` (else re-raise); any other
exception propagates. -/
def run_checks_ignorable (p : PumpConfig) (no_response_ok already_running_ok : Bool)
    (reply : List String) : List String × Except PErr Unit :=
  let (t, res) := issue_command p "RUN" "" (.pyStr "") (.pyInt 0) reply
  match res with
  | .ok _ => (t, .ok ())
  | .error .notApplicable =>
    (t, if already_running_ok then .ok () else .error .notApplicable)
  | .error .noResponse =>
    (t, if no_response_ok then .ok () else .error .noResponse)
  | .error e => (t, .error e)

/-- The tail of `Pump.run` (pump.py:227-232): query the state; if it is in
`running_status` store `self.state = 'infusing'`, otherwise raise a plain
`PumpError`. -/
def run_finish (p : PumpConfig) (st : PumpSt) (t : List String) (replies : Replies) :
    List String × Except PErr PumpSt :=
  let (r, _) := nextReply replies
  let (ts, res) := get_state p r
  match res with
  | .error e => (t ++ ts, .error e)
  | .ok c =>
    if p.running_status.contains c then (t ++ ts, .ok { st with state := some "infusing" })
    else (t ++ ts, .error .generic)

/-- `Pump.run` (pump.py:212-232): `_run_checks_ignorable(False, ...)`, then a
second direct `RUN`; only a `PumpNoResponseError` from either is caught, in
which case `_run_checks_ignorable` is tried once more; finally the state is
queried and stored. -/
def run (p : PumpConfig) (st : PumpSt) (already_running_ok : Bool) (replies : Replies) :
    List String × Except PErr PumpSt :=
  let (r0, rest0) := nextReply replies
  let (t0, res0) := run_checks_ignorable p false already_running_ok r0
  match res0 with
  | .error .noResponse =>
    let (r1, rest1) := nextReply rest0
    let (t1, res1) := run_checks_ignorable p false already_running_ok r1
    match res1 with
    | .error e => (t0 ++ t1, .error e)
    | .ok _ => run_finish p st (t0 ++ t1) rest1
  | .error e => (t0, .error e)
  | .ok _ =>
    let (r1, rest1) := nextReply rest0
    let (t1, res1) := issue_command p "RUN" "" (.pyStr "") (.pyInt 0) r1
    match res1 with
    | .error .noResponse =>
      let (r2, rest2) := nextReply rest1
      let (t2, res2) := run_checks_ignorable p false already_running_ok r2
      match res2 with
      | .error e => (t0 ++ t1 ++ t2, .error e)
      | .ok _ => run_finish p st (t0 ++ t1 ++ t2) rest2
    | .error e => (t0 ++ t1, .error e)
    | .ok _ => run_finish p st (t0 ++ t1) rest1

/-- `Pump.set_mode` (pump.py:349-367): reject a mode not among the dict's
values with a plain `PumpError` before anything is sent; otherwise issue
`MOD <mode>`, re-query the mode, translate the reply through
`mode_conversion` *as a key* (KeyError if absent) and compare. -/
def set_mode (p : PumpConfig) (mode : String) (replies : Replies) :
    List String × Except PErr Unit :=
  if !(p.mode_conversion.map Prod.snd).contains mode then ([], .error .generic)
  else
    let (r0, rest0) := nextReply replies
    let (t0, res0) := issue_command p "MOD" mode (.pyStr "") (.pyInt 0) r0
    match res0 with
    | .error e => (t0, .error e)
    | .ok _ =>
      let (r1, _) := nextReply rest0
      let (t1, res1) := get_mode p r1
      match res1 with
      | .error e => (t0 ++ t1, .error e)
      | .ok got =>
        match strLookup got p.mode_conversion with
        | none => (t0 ++ t1, .error .keyErr)
        | some m2 =>
          if m2 = mode then (t0 ++ t1, .ok ()) else (t0 ++ t1, .error .generic)

/-- `Pump.set_diameter` (pump.py:394-417).  Range check, running check, encode,
then `issue_command('DIA', str_diameter, syringe)` — which, against the new
signature `(command, value, units, syringe)`, passes the *integer* `syringe`
as `units`.  The confirmation re-queries the diameter and compares
`"%2.2f" % returned != str_diameter`, then `float(returned) == diameter`
(logged success `true`) else silent completion `false`. -/
def set_diameter (p : PumpConfig) (diameter : ℚ) (syringe : Int) (replies : Replies) :
    List String × Except PErr Bool :=
  if !(mkRat 1 10 < diameter ∧ diameter < 50) then ([], .error .generic)
  else
    let (r0, rest0) := nextReply replies
    let (t0, res0) := get_state p r0
    match res0 with
    | .error e => (t0, .error e)
    | .ok c =>
      if p.running_status.contains c then (t0, .error .generic)
      else
        match parse_float_to_str diameter with
        | .error e => (t0, .error e)
        | .ok str_diameter =>
          let (r1, rest1) := nextReply rest0
          let (t1, res1) := issue_command p "DIA" str_diameter (.pyInt syringe) (.pyInt 0) r1
          match res1 with
          | .error e => (t0 ++ t1, .error e)
          | .ok _ =>
            let (r2, _) := nextReply rest1
            let (t2, res2) := get_diameter p syringe r2
            match res2 with
            | .error e => (t0 ++ t1 ++ t2, .error e)
            | .ok returned =>
              if format2f returned ≠ str_diameter then (t0 ++ t1 ++ t2, .error .generic)
              else if returned = diameter then (t0 ++ t1 ++ t2, .ok true)
              else (t0 ++ t1 ++ t2, .ok false)

/-- `Pump.set_rate` (pump.py:419-445).  Unit check (`ValueError`), translate
and encode, then `issue_command('RAT', parsed, syringe, actual_units)` —
against the new signature this passes the integer `syringe` as `units` and
the unit code string as `syringe`.  On success the rate is re-queried and
`float(parsed_flowrate) == rate_reply[0] and unit == rate_reply[1]` decides
between logged success and a plain `PumpError`. -/
def set_rate (p : PumpConfig) (flowrate : ℚ) (unit : String) (syringe : Int)
    (replies : Replies) : List String × Except PErr Unit :=
  if !(p.unit_conversion.map Prod.fst).contains unit then ([], .error .valueErr)
  else
    match strLookup unit p.unit_conversion with
    | none => ([], .error .keyErr)
    | some actual_units =>
      match parse_float_to_str flowrate with
      | .error e => ([], .error e)
      | .ok parsed_flowrate =>
        let (r0, rest0) := nextReply replies
        let (t0, res0) :=
          issue_command p "RAT" parsed_flowrate (.pyInt syringe) (.pyStr actual_units) r0
        match res0 with
        | .error e => (t0, .error e)
        | .ok _ =>
          let (r1, _) := nextReply rest0
          let (t1, res1) := get_rate p syringe r1
          match res1 with
          | .error e => (t0 ++ t1, .error e)
          | .ok rate_reply =>
            match parse_float_response parsed_flowrate with
            | .error e => (t0 ++ t1, .error e)
            | .ok pf =>
              if pf = rate_reply.1 ∧ unit = rate_reply.2 then (t0 ++ t1, .ok ())
              else (t0 ++ t1, .error .generic)

/-- The polling loop of `Pump.sleep_with_heartbeat` (pump.py:483-487), with
the remaining number of ticks made explicit (each tick is one iteration of
`while time.time() < end_time`): query the state, raise a plain `PumpError`
if it is in `stalled_status` while `error_wakeup` is set, else sleep and
continue. -/
def heartbeat_loop (p : PumpConfig) (error_wakeup : Bool) :
    Replies → Nat → Except PErr Unit
  | _, 0 => .ok ()
  | replies, n + 1 =>
    let (r, rest) := nextReply replies
    match (get_state p r).2 with
    | .error e => .error e
    | .ok c =>
      if p.stalled_status.contains c && error_wakeup then .error .generic
      else heartbeat_loop p error_wakeup rest n

/-- `Pump.sleep_with_heartbeat` (pump.py:468-487): the returned `Bool` is
whether the no-stall-detection warning is logged (it is logged exactly once,
before the loop begins, iff the stalled set is empty and `error_wakeup` is
set); the `Except` is the loop outcome over the given number of ticks. -/
def sleep_with_heartbeat (p : PumpConfig) (error_wakeup : Bool)
    (replies : Replies) (ticks : Nat) : Bool × Except PErr Unit :=
  (p.stalled_status.isEmpty && error_wakeup, heartbeat_loop p error_wakeup replies ticks)

/-- The result type of `get_refill_rate`: the PHD2000-with-refill
implementation returns a `(rate, unit)` tuple, the no-refill override returns
a bare `int`. -/
inductive RefillRateResult where
  | ratePair : ℚ → String → RefillRateResult
  | intOnly : ℤ → RefillRateResult
  deriving DecidableEq, Repr

/-- `PumpPHD2000_Refill_new.get_refill_rate` (pump.py:683-697): issue `RFR`,
split `resp[1].strip()` into columns 0-5 and 6.., return the pair. -/
def refill_get_refill_rate (p : PumpConfig) (reply : List String) :
    List String × Except PErr RefillRateResult :=
  let (t, res) := issue_command p "RFR" "" (.pyStr "") (.pyInt 0) reply
  match res with
  | .error e => (t, .error e)
  | .ok resp =>
    match resp.get? 1 with
    | none => (t, .error .indexErr)
    | some l0 =>
      let l := (pyStrip l0).toList
      let number := pyStrip (String.mk (l.take 6))
      let unit := pyStrip (String.mk (l.drop 6))
      match parse_float_response number with
      | .error e => (t, .error e)
      | .ok q => (t, .ok (.ratePair q unit))

/-- `PumpPHD2000_NoRefill_new.set_direction` (pump.py:722-724): the method
body is a single unconditional `raise PumpFunctionNotAvailableError`; no
instruction is ever built or written. -/
def norefill_set_direction (direction : String) : List String × Except PErr Unit :=
  ([], .error .funcNotAvailable)

/-- `PumpPHD2000_NoRefill_new.set_refill_rate` (pump.py:726-728):
unconditional `raise PumpFunctionNotAvailableError`. -/
def norefill_set_refill_rate (flowrate : ℚ) (unit : String) :
    List String × Except PErr Unit :=
  ([], .error .funcNotAvailable)

/-- `PumpPHD2000_NoRefill_new.set_autofill` (pump.py:730-732): unconditional
`raise PumpFunctionNotAvailableError`. -/
def norefill_set_autofill (autofill : String) : List String × Except PErr Unit :=
  ([], .error .funcNotAvailable)

/-- `PumpPHD2000_NoRefill_new.get_refill_rate` (pump.py:734-736): `return 4`
(a bare int, despite the declared `tuple[float, str]` return type), touching
neither the transport nor any attribute. -/
def norefill_get_refill_rate : List String × Except PErr RefillRateResult :=
  ([], .ok (.intOnly 4))

/-! Helper lemmas shared by several claim theorems. -/

lemma classify_response_not_noResponse (r : List String) :
    classify_response r ≠ Except.error PErr.noResponse := by
  rcases r with _ | ⟨a, _ | ⟨b, rest⟩⟩ <;> simp [classify_response] <;>
    split_ifs <;> simp

lemma classify_response_not_stall (r : List String) :
    classify_response r ≠ Except.error PErr.stall := by
  rcases r with _ | ⟨a, _ | ⟨b, rest⟩⟩ <;> simp [classify_response] <;>
    split_ifs <;> simp

lemma issue_command_not_noResponse (p : PumpConfig) (c v : String) (u s : PyVal)
    (r : List String) : (issue_command p c v u s r).2 ≠ Except.error PErr.noResponse := by
  unfold issue_command
  cases hl : pyLookup p.syringe_selection s with
  | none => simp
  | some sc =>
    cases u with
    | pyInt n => simp
    | pyStr us => simpa using classify_response_not_noResponse r

lemma issue_command_not_stall (p : PumpConfig) (c v : String) (u s : PyVal)
    (r : List String) : (issue_command p c v u s r).2 ≠ Except.error PErr.stall := by
  unfold issue_command
  cases hl : pyLookup p.syringe_selection s with
  | none => simp
  | some sc =>
    cases u with
    | pyInt n => simp
    | pyStr us => simpa using classify_response_not_stall r

lemma get_state_not_stall (p : PumpConfig) (r : List String) :
    (get_state p r).2 ≠ Except.error PErr.stall := by
  have h := issue_command_not_stall p "MOD" "" (.pyStr "") (.pyInt 0) r
  rcases hic : issue_command p "MOD" "" (.pyStr "") (.pyInt 0) r with ⟨t, res⟩
  rw [hic] at h
  simp only [get_state, hic]
  cases res with
  | error e => simpa using h
  | ok resp =>
    cases h2 : resp[2]? with
    | none => simp [h2]
    | some l2 =>
      cases h3 : l2.data[1]? with
      | none => simp [h2, h3]
      | some c => simp [h2, h3]

/-- C1: The spec says a zero-byte reply raises `PumpNoResponseError` and that
`run()` retries the RUN once on that specific failure.  In the code,
`issue_command` raises the plain `PumpError` on an empty reply
(pump.py:170-171), and in fact no code path ever raises
`PumpNoResponseError`, so the `except PumpNoResponseError` handlers in
`run`/`_run_checks_ignorable` are dead: with a silent transport, `run` sends
RUN exactly once and propagates the plain error with no retry. -/
theorem C1_no_response_is_generic_and_unretried :
    (∀ (p : PumpConfig) (c v : String) (u s : PyVal) (r : List String),
      (issue_command p c v u s r).2 ≠ Except.error PErr.noResponse)
    ∧ run basePump ⟨none⟩ true [] = (["00RUN"], Except.error PErr.generic)
    ∧ PErr.generic ≠ PErr.noResponse :=
  ⟨issue_command_not_noResponse, by decide, by decide⟩

/-- C3: With a pump that answers `NA` to every `RUN` (the already-running
situation), `run` under the default `already_running_ok=True` absorbs the
first `NA` inside `_run_checks_ignorable` but then issues a second direct
`RUN` (pump.py:222) whose `NA` is not caught, so `run` raises
`PumpNotApplicableError` instead of returning successfully; strict mode
raises as the spec says, from the first `RUN`. -/
theorem C3_run_na_propagates_despite_default :
    run basePump ⟨none⟩ true [["05", "NA"], ["05", "NA"]] =
      (["00RUN", "00RUN"], Except.error PErr.notApplicable)
    ∧ run basePump ⟨none⟩ false [["05", "NA"]] =
      (["00RUN"], Except.error PErr.notApplicable) :=
  ⟨by decide, by decide⟩

/-- C5: `set_diameter`/`set_rate` never reach their confirmation compare: the
new `issue_command` signature is `(command, value, units, syringe)` but both
setters still call it in the old `(command, value, syringe, units)` order
(pump.py:410, 436).  `set_diameter(18.08)` dies with a `TypeError` when the
integer syringe number is concatenated into the instruction (after the one
`MOD` state query), and `set_rate` dies with the `ValueError` of looking up
the unit code string as a syringe key, before a single byte of `RAT` is
written. -/
theorem C5_set_operations_arg_order_crash :
    set_diameter basePump (mkRat 1808 100) 0 [["05", "mm", "a:"]] =
      (["00MOD"], Except.error PErr.typeErr)
    ∧ set_rate basePump (mkRat 122 10) "ml/hr" 1 [] =
      ([], Except.error PErr.valueErr) :=
  ⟨by decide, by decide⟩

/-- C7: `PumpPHD2000_NoRefill_new.set_direction` unconditionally raises
`PumpFunctionNotAvailableError` for every direction argument and its
transport trace is empty: no byte is ever written. -/
theorem C7_norefill_set_direction_capability_error (direction : String) :
    norefill_set_direction direction = ([], Except.error PErr.funcNotAvailable) :=
  rfl

/-- C9: On the no-refill PHD2000 family, `get_refill_rate` returns the bare
integer 4 with an empty transport trace and no error, and that value is not a
`(magnitude, unit)` pair — while the sibling setters `set_refill_rate` and
`set_autofill` of the same family raise `PumpFunctionNotAvailableError`. -/
theorem C9_norefill_get_refill_rate_returns_4 :
    norefill_get_refill_rate = ([], Except.ok (RefillRateResult.intOnly 4))
    ∧ (∀ (q : ℚ) (u : String),
        norefill_set_refill_rate q u = ([], Except.error PErr.funcNotAvailable))
    ∧ (∀ a : String,
        norefill_set_autofill a = ([], Except.error PErr.funcNotAvailable))
    ∧ (∀ (q : ℚ) (u : String), RefillRateResult.intOnly 4 ≠ .ratePair q u) :=
  ⟨rfl, fun _ _ => rfl, fun _ => rfl, fun _ _ => by simp⟩

lemma rheScaled_dvd (num : ℤ) (den : ℕ) (h0 : 0 < den) (h : (den : ℤ) ∣ num) :
    rheScaled num den = num / den := by
  have hr : num % (den : ℤ) = 0 := Int.emod_eq_zero_of_dvd h
  have hpos : (0 : ℤ) < (den : ℤ) := by exact_mod_cast h0
  simp [rheScaled, hr, hpos]

/-- C2 counterexample: at v = 1.9999 the encoder's `f"{v:.3f}"` step *rounds*
to "2.000", so `decode(encode(v))` is 2, while truncating v to 3 decimals and
fitting the 5-character field gives 1.999.  The claim's equation fails. -/
theorem C2_counterexample_rounding :
    decode_encode (mkRat 19999 10000) = Except.ok 2
    ∧ spec_truncate_fit (mkRat 19999 10000) = Except.ok (mkRat 1999 1000)
    ∧ decode_encode (mkRat 19999 10000) ≠ spec_truncate_fit (mkRat 19999 10000) :=
  ⟨by decide, by decide, by decide⟩

/-- C2 (amended): values outside `[0, 9999)` are rejected before encoding,
and for every value with at most three decimal places (denominator dividing
1000 — where the `.3f` render is exact, so rounding and truncation agree)
`decode(encode(v))` equals the spec's truncate-to-3-decimals-and-fit-5-chars
value.  For finer values the encoder rounds at the third decimal instead of
truncating (see the counterexample). -/
theorem C2_roundtrip_truncation_amended :
    (∀ q : ℚ, ¬ (0 ≤ q ∧ q < 9999) → parse_float_to_str q = .error .valueErr)
    ∧ (∀ q : ℚ, 0 ≤ q → q < 9999 → q.den ∣ 1000 →
        decode_encode q = spec_truncate_fit q) := by
  constructor
  · intro q h
    simp only [parse_float_to_str, if_neg h]
  · intro q h0 h9 hdvd
    have hdpos : 0 < q.den := q.pos
    have hzdvd : (q.den : ℤ) ∣ (1000 : ℤ) := by exact_mod_cast hdvd
    have hd1 : (q.den : ℤ) ∣ q.num * 1000 := hzdvd.mul_left q.num
    have e1 : rheScaled (q.num * 1000) q.den = q.num * 1000 / (q.den : ℤ) :=
      rheScaled_dvd _ _ hdpos hd1
    have e2 : rheScaled ((q.num * 1000 / (q.den : ℤ)) * 1000) 1000
        = q.num * 1000 / (q.den : ℤ) := by
      rw [rheScaled_dvd _ _ (by norm_num) (dvd_mul_left 1000 _)]
      exact Int.mul_ediv_cancel _ (by norm_num)
    simp only [decode_encode, parse_float_to_str, if_pos (And.intro h0 h9),
      spec_truncate_fit, formatFixed3, formatScaled3, e1, e2]

/-- C2 amended, instantiated: -1 is rejected, and 2.1 (one decimal place)
round-trips to the truncate-and-fit value. -/
theorem C2_roundtrip_truncation_amended_witness :
    parse_float_to_str (-1) = Except.error PErr.valueErr
    ∧ decode_encode (mkRat 21 10) = spec_truncate_fit (mkRat 21 10) :=
  ⟨C2_roundtrip_truncation_amended.1 (-1) (by norm_num),
   C2_roundtrip_truncation_amended.2 (mkRat 21 10) (by decide) (by decide) (by decide)⟩

/-- C4 counterexample: a non-empty reply of a single line is not classified
by a second line and is not returned — `response[1]` raises an `IndexError`
(pump.py:173). -/
theorem C4_counterexample_single_line :
    classify_response ["05"] = Except.error PErr.indexErr
    ∧ ∀ l : List String, classify_response ["05"] ≠ Except.ok l :=
  ⟨by decide, fun l => by simp [classify_response]⟩

/-- C4 (amended): for every reply with at least two lines, `issue_command`
classifies by the second line in the order `?` (Syntax Error), `NA`
(Not-Applicable), `OOR` (Out-Of-Range), otherwise returns all lines; and the
object-level step never changes a stored attribute (the method body contains
no assignment), in particular not on `OOR`. -/
theorem C4_classification_amended :
    (∀ (l0 l1 : String) (rest : List String), containsSub l1 "?" = true →
      classify_response (l0 :: l1 :: rest) = .error .synErr)
    ∧ (∀ (l0 l1 : String) (rest : List String), containsSub l1 "?" = false →
        containsSub l1 "NA" = true →
        classify_response (l0 :: l1 :: rest) = .error .notApplicable)
    ∧ (∀ (l0 l1 : String) (rest : List String), containsSub l1 "?" = false →
        containsSub l1 "NA" = false → containsSub l1 "OOR" = true →
        classify_response (l0 :: l1 :: rest) = .error .outOfRange)
    ∧ (∀ (l0 l1 : String) (rest : List String), containsSub l1 "?" = false →
        containsSub l1 "NA" = false → containsSub l1 "OOR" = false →
        classify_response (l0 :: l1 :: rest) = .ok (l0 :: l1 :: rest))
    ∧ (∀ (st : PumpSt) (p : PumpConfig) (c v : String) (u s : PyVal) (r : List String),
        (issue_command_st st p c v u s r).1 = st) := by
  refine ⟨?_, ?_, ?_, ?_, fun _ _ _ _ _ _ _ => rfl⟩
  · intro l0 l1 rest h
    simp [classify_response, h]
  · intro l0 l1 rest h1 h2
    simp [classify_response, h1, h2]
  · intro l0 l1 rest h1 h2 h3
    simp [classify_response, h1, h2, h3]
  · intro l0 l1 rest h1 h2 h3
    simp [classify_response, h1, h2, h3]

/-- C4 amended, instantiated at each classification branch. -/
theorem C4_classification_amended_witness :
    classify_response ["05", "x?"] = Except.error PErr.synErr
    ∧ classify_response ["05", "xNA"] = Except.error PErr.notApplicable
    ∧ classify_response ["05", "xOOR"] = Except.error PErr.outOfRange
    ∧ classify_response ["05", "0.5"] = Except.ok ["05", "0.5"] :=
  ⟨C4_classification_amended.1 "05" "x?" [] (by decide),
   C4_classification_amended.2.1 "05" "xNA" [] (by decide) (by decide),
   C4_classification_amended.2.2.1 "05" "xOOR" [] (by decide) (by decide) (by decide),
   C4_classification_amended.2.2.2.1 "05" "0.5" [] (by decide) (by decide) (by decide)⟩

/-- C6 counterexample: `get_state` returns character 1 of the *third* reply
line (`response[2][1]`, pump.py:277), not a position of the second line: in
the reply `["05", "AA", "B:"]` the decoded status `:` occurs nowhere in the
second line `AA`. -/
theorem C6_counterexample_second_line :
    (get_state basePump ["05", "AA", "B:"]).2 = Except.ok ':'
    ∧ ∀ c ∈ "AA".toList, c ≠ ':' :=
  ⟨by decide, by decide⟩

/-- C6 (amended): `get_state` issues exactly one command (`MOD`) and decodes
the one-character status from the fixed position 1 of the *third* reply line
(line index 2).  It threads no stored state (a pure query — the model takes
no `PumpSt` at all). -/
theorem C6_get_state_amended (p : PumpConfig) (syr0 l0 l1 l2 : String)
    (rest : List String) (c0 c1 : Char) (cs : List Char)
    (hsy : intLookup 0 p.syringe_selection = some syr0)
    (h1 : containsSub l1 "?" = false) (h2 : containsSub l1 "NA" = false)
    (h3 : containsSub l1 "OOR" = false) (h4 : l2.data = c0 :: c1 :: cs) :
    (get_state p (l0 :: l1 :: l2 :: rest)).1.length = 1
    ∧ (get_state p (l0 :: l1 :: l2 :: rest)).2 = Except.ok c1 := by
  constructor <;>
    simp [get_state, issue_command, pyLookup, hsy, classify_response, h1, h2, h3, h4]

/-- C6 amended, instantiated: one `MOD` exchange whose third line is "a:b"
decodes the status `:`. -/
theorem C6_get_state_amended_witness :
    (get_state basePump ["05", "mm", "a:b"]).1.length = 1
    ∧ (get_state basePump ["05", "mm", "a:b"]).2 = Except.ok ':' :=
  C6_get_state_amended basePump "" "05" "mm" "a:b" [] 'a' ':' ['b']
    (by decide) (by decide) (by decide) (by decide) (by decide)

/-- C8: a stalled tick with `error_wakeup` set never returns normally — the
loop aborts — but with the plain `PumpError` (pump.py:486), never with
`PumpStallError`, which no code path raises at all; and the
no-stall-detection warning is emitted exactly once, before the loop starts,
iff the family's stalled set is empty and `error_wakeup` is set (true for
the PHD2000 family). -/
theorem C8_heartbeat_stall_raises_generic :
    (∀ (p : PumpConfig) (ew : Bool) (rs : Replies) (n : Nat),
      heartbeat_loop p ew rs n ≠ Except.error PErr.stall)
    ∧ sleep_with_heartbeat basePump true [["05", "mm", "a*"]] 3 =
        (false, Except.error PErr.generic)
    ∧ (sleep_with_heartbeat pumpPHD2000New true [] 5).1 = true
    ∧ PErr.generic ≠ PErr.stall := by
  refine ⟨?_, by decide, by decide, by decide⟩
  intro p ew rs n
  induction n generalizing rs with
  | zero => simp [heartbeat_loop]
  | succ n ih =>
    simp only [heartbeat_loop]
    have hgs := get_state_not_stall p (nextReply rs).1
    cases hgc : (get_state p (nextReply rs).1).2 with
    | error e =>
      rw [hgc] at hgs
      simp [hgc]
      intro hcontra
      exact hgs (by rw [hcontra])
    | ok c =>
      simp only [hgc]
      split
      · simp
      · exact ih _

/-- C10: the `mode_conversion` dict literal of the new Model 33 family has
three identical keys `"??"`, so it collapses to the single entry
`"??" ↦ "CON"`; consequently `set_mode` passes validation only for `"CON"`
(the `MOD` instruction is then written) and rejects any other mode with a
`PumpError` before any byte reaches the transport. -/
theorem C10_model33_mode_table_collapses :
    model33_mode_conversion = [("??", "CON")]
    ∧ (∀ (m : String) (rs : Replies), m ≠ "CON" →
        set_mode pumpModel33New m rs = ([], Except.error PErr.generic))
    ∧ (∀ rs : Replies,
        (set_mode pumpModel33New "CON" rs).1.head? = some "00MODCON") := by
  have hmc : pumpModel33New.mode_conversion = [("??", "CON")] := by decide
  refine ⟨by decide, ?_, ?_⟩
  · intro m rs hm
    simp [set_mode, hmc, hm]
  · intro rs
    have hi : ∀ r : List String,
        issue_command pumpModel33New "MOD" "CON" (.pyStr "") (.pyInt 0) r
          = (["00MODCON"], classify_response r) := fun r => rfl
    simp only [set_mode, hmc]
    norm_num
    rw [hi]
    cases hcl : classify_response (nextReply rs).1 with
    | error e => simp [hcl]
    | ok resp =>
      simp only [hcl]
      rcases hgm : get_mode pumpModel33New (nextReply (nextReply rs).2).1 with ⟨t1, res1⟩
      simp only [hgm]
      cases res1 with
      | error e => simp
      | ok got =>
        split <;> (try split) <;> (try split_ifs) <;> simp

/-- C10, instantiated: `AUT` and `PROP` are rejected with no byte sent. -/
theorem C10_model33_mode_table_collapses_witness :
    set_mode pumpModel33New "AUT" [] = ([], Except.error PErr.generic)
    ∧ set_mode pumpModel33New "PROP" [] = ([], Except.error PErr.generic) :=
  ⟨C10_model33_mode_table_collapses.2.1 "AUT" [] (by decide),
   C10_model33_mode_table_collapses.2.1 "PROP" [] (by decide)⟩
